import Mathlib

/-
Verification of the hierarchical sales simulation engine of the green_data
repository (data_generator/src/statistical_models.py and the orchestrating
period loop of data_generator/src/generate_rgm_data.py).

Modelling conventions:
* Python floats are modelled as exact rationals (ℚ); the real-exponential
  seasonal curves are modelled over ℝ with Real.exp.
* Every call to the random number generator is modelled as an explicit input
  (an oracle): a draw from numpy's uniform(a, b) is a parameter hypothesised
  to lie in [a, b) where a theorem needs it, a normal draw is an unconstrained
  parameter, and a lognormal draw is a positive parameter.  Independent
  identically distributed draws made in a data-driven loop are indexed by the
  entity (geography key, product key) they are drawn for.
* Python dicts are modelled as association lists with unique keys; assignment
  replaces the entry for an existing key in place and appends a new entry
  otherwise.
-/

namespace RGM

/-! ## Association-list helpers (model of Python dicts) -/

/-- Lookup in an association list (first entry with the given key wins,
matching Python dict semantics where keys are unique). -/
def alookup {α : Type} [DecidableEq α] (k : α) : List (α × ℚ) → Option ℚ
  | [] => none
  | e :: rest => if e.1 = k then some e.2 else alookup k rest

/-- Dict assignment `d[k] = v`: replace the (unique) entry for `k` in place
when the key is present, append a fresh entry at the end otherwise. -/
def setEntry {α : Type} [DecidableEq α] : List (α × ℚ) → α → ℚ → List (α × ℚ)
  | [], k, v => [(k, v)]
  | e :: rest, k, v => if e.1 = k then (k, v) :: rest else e :: setEntry rest k v

theorem alookup_setEntry_self {α : Type} [DecidableEq α] (k : α) (v : ℚ) :
    ∀ l : List (α × ℚ), alookup k (setEntry l k v) = some v := by
  intro l
  induction l with
  | nil => simp [alookup, setEntry]
  | cons e rest ih =>
    by_cases he : e.1 = k
    · simp [setEntry, he, alookup]
    · simp [setEntry, he, alookup, ih]

theorem setEntry_length_le {α : Type} [DecidableEq α] (l : List (α × ℚ))
    (k : α) (v : ℚ) : (setEntry l k v).length ≤ l.length + 1 := by
  induction l with
  | nil => simp [setEntry]
  | cons e rest ih =>
    by_cases he : e.1 = k
    · simp [setEntry, he]
    · simp only [setEntry, he, if_false, List.length_cons]
      omega

theorem alookup_eq_none_of_forall {α : Type} [DecidableEq α] (k : α) :
    ∀ l : List (α × ℚ), (∀ e ∈ l, e.1 ≠ k) → alookup k l = none := by
  intro l
  induction l with
  | nil => intro _; rfl
  | cons e rest ih =>
    intro h
    have he : e.1 ≠ k := h e (List.mem_cons_self e rest)
    simp only [alookup, he, if_false]
    exact ih fun x hx => h x (List.mem_cons_of_mem e hx)

/-! ## TemporalSalesModel (statistical_models.py, lines 270-326)

`apply_temporal_smoothing` is embedded as a state-passing function.  The
series history (`self.sales_history`) is the association list threaded in and
out; the composite brand-trend multiplier (`get_trend_multiplier` times
`get_product_lifecycle_multiplier`, a randomised quantity computed upstream)
and the three random draws of the smoother itself (`beta` from uniform(0.97,
1.03), `epsilon` from a normal, `jitter` from uniform(0.98, 1.02)) enter as
explicit inputs. -/

/-- The smoothed value `final_sales` computed by
`TemporalSalesModel.apply_temporal_smoothing` before the `max(0, ·)` on the
return path: the trended base is `base_sales * trend_mult`; when the literal
key `(geo_key, product_key, time_key - 1)` is in the history the AR(1) blend
`0.85 * (beta * prev + epsilon) + 0.15 * base` is used, otherwise
`base * jitter`. -/
def smoothedValue (hist : List ((ℤ × ℤ × ℤ) × ℚ)) (geo_key product_key time_key : ℤ)
    (base_sales trend_mult beta epsilon jitter : ℚ) : ℚ :=
  let base := base_sales * trend_mult
  match alookup (geo_key, product_key, time_key - 1) hist with
  | some prev => (85 / 100) * (beta * prev + epsilon) + (15 / 100) * base
  | none => base * jitter

/-- `TemporalSalesModel.apply_temporal_smoothing`: computes `final_sales`,
stores it (unfloored) in `sales_history` under `(geo_key, product_key,
time_key)`, and returns `max(0, final_sales)` together with the new history. -/
def apply_temporal_smoothing (hist : List ((ℤ × ℤ × ℤ) × ℚ))
    (geo_key product_key time_key : ℤ)
    (base_sales trend_mult beta epsilon jitter : ℚ) :
    ℚ × List ((ℤ × ℤ × ℤ) × ℚ) :=
  let final := smoothedValue hist geo_key product_key time_key
    base_sales trend_mult beta epsilon jitter
  (max 0 final, setEntry hist (geo_key, product_key, time_key) final)

/-! ### Claim C2 -/

/-- Claim C2, counterexample.  With history `{(1,1,2201) ↦ 100}` and a call
for period 2202 with `base_sales = 1`, `trend_mult = 1`, `beta = 0.97`
(inside uniform(0.97, 1.03)) and normal draw `epsilon = -200`, the value
written into the history for `(1, 1, 2202)` is `-437/5 < 0` while the value
returned to the caller is `0`: the result is floored only on the return path,
after the unfloored value has been stored, so the stored and returned values
differ and the stored value is negative. -/
theorem c2_counterexample :
    alookup ((1 : ℤ), (1 : ℤ), (2202 : ℤ))
        (apply_temporal_smoothing [((1, 1, 2201), 100)] 1 1 2202 1 1 (97 / 100) (-200) 1).2
      = some (-437 / 5)
    ∧ (apply_temporal_smoothing [((1, 1, 2201), 100)] 1 1 2202 1 1 (97 / 100) (-200) 1).1 = 0
    ∧ ((-437 : ℚ) / 5 < 0) := by
  refine ⟨?_, ?_, by norm_num⟩ <;>
    norm_num [apply_temporal_smoothing, smoothedValue, setEntry, alookup]

/-- Claim C2, amended.  For every call of the temporal smoother the returned
value is `max 0 final_sales` and hence nonnegative, while the value written
into the series history for `(geography, product, period)` is the unfloored
`final_sales`; the two agree exactly when `final_sales` is already
nonnegative.  (The claim's assertion that the floored value is stored fails:
the code stores `final_sales` first and applies `max(0, ·)` only to the
returned value.) -/
theorem c2_amended (hist : List ((ℤ × ℤ × ℤ) × ℚ)) (g p t : ℤ)
    (base trend beta epsilon jitter : ℚ) :
    (apply_temporal_smoothing hist g p t base trend beta epsilon jitter).1
        = max 0 (smoothedValue hist g p t base trend beta epsilon jitter)
    ∧ 0 ≤ (apply_temporal_smoothing hist g p t base trend beta epsilon jitter).1
    ∧ alookup (g, p, t) (apply_temporal_smoothing hist g p t base trend beta epsilon jitter).2
        = some (smoothedValue hist g p t base trend beta epsilon jitter)
    ∧ (0 ≤ smoothedValue hist g p t base trend beta epsilon jitter →
        (apply_temporal_smoothing hist g p t base trend beta epsilon jitter).1
          = smoothedValue hist g p t base trend beta epsilon jitter) := by
  refine ⟨rfl, le_max_left 0 _, alookup_setEntry_self _ _ _, fun h => ?_⟩
  exact max_eq_right h

/-- Claim C2, amended: witness at a concrete call (history branch,
`final_sales = 97·0.85 + 0.15 = 413/5 ≥ 0`, stored and returned agree). -/
theorem c2_witness :
    (apply_temporal_smoothing [((1, 1, 2201), 100)] 1 1 2202 1 1 (97 / 100) 0 1).1
        = max 0 (smoothedValue [((1, 1, 2201), 100)] 1 1 2202 1 1 (97 / 100) 0 1)
    ∧ 0 ≤ (apply_temporal_smoothing [((1, 1, 2201), 100)] 1 1 2202 1 1 (97 / 100) 0 1).1
    ∧ alookup ((1 : ℤ), (1 : ℤ), (2202 : ℤ))
        (apply_temporal_smoothing [((1, 1, 2201), 100)] 1 1 2202 1 1 (97 / 100) 0 1).2
        = some (smoothedValue [((1, 1, 2201), 100)] 1 1 2202 1 1 (97 / 100) 0 1)
    ∧ (0 ≤ smoothedValue [((1, 1, 2201), 100)] 1 1 2202 1 1 (97 / 100) 0 1 →
        (apply_temporal_smoothing [((1, 1, 2201), 100)] 1 1 2202 1 1 (97 / 100) 0 1).1
          = smoothedValue [((1, 1, 2201), 100)] 1 1 2202 1 1 (97 / 100) 0 1) :=
  c2_amended [((1, 1, 2201), 100)] 1 1 2202 1 1 (97 / 100) 0 1

/-! ### Claim C4 -/

/-- Claim C4, counterexample.  Two smoother calls for the same series
`(geography 1, product 1)` in consecutive periods 2201 and 2202 leave a
history of cardinality 2, although only one `(product, geography)` pair was
ever sampled: the history key is the triple `(geo_key, product_key,
time_key)`, so a call does not overwrite the series' previous entry and the
cardinality grows with the number of periods, not with the number of pairs. -/
theorem c4_counterexample :
    ((apply_temporal_smoothing
        (apply_temporal_smoothing [] 1 1 2201 10 1 1 0 1).2
        1 1 2202 10 1 1 0 1).2).length = 2
    ∧ ((apply_temporal_smoothing
        (apply_temporal_smoothing [] 1 1 2201 10 1 1 0 1).2
        1 1 2202 10 1 1 0 1).2).map (fun e => (e.1.1, e.1.2.1)) = [(1, 1), (1, 1)] := by
  constructor <;>
    norm_num [apply_temporal_smoothing, smoothedValue, setEntry, alookup]

/-- Claim C4, amended.  The smoother's history maps `(geography key, product
key, time key)` triples to smoothed values.  Each call inserts or overwrites
exactly the entry for the call's own triple, so a call grows the history by
at most one entry and after processing the history cardinality is bounded by
(number of sampled (product, geography) pairs) × (number of periods), not by
the number of pairs alone. -/
theorem c4_amended (hist : List ((ℤ × ℤ × ℤ) × ℚ)) (g p t : ℤ)
    (base trend beta epsilon jitter : ℚ) :
    ((apply_temporal_smoothing hist g p t base trend beta epsilon jitter).2).length
        ≤ hist.length + 1
    ∧ alookup (g, p, t) (apply_temporal_smoothing hist g p t base trend beta epsilon jitter).2
        = some (smoothedValue hist g p t base trend beta epsilon jitter) :=
  ⟨setEntry_length_le hist _ _, alookup_setEntry_self _ _ _⟩

/-- Claim C4, amended: witness at a concrete call. -/
theorem c4_witness :
    ((apply_temporal_smoothing [((1, 1, 2201), 10)] 1 1 2202 10 1 1 0 1).2).length
        ≤ ([((1, 1, 2201), (10 : ℚ))] : List ((ℤ × ℤ × ℤ) × ℚ)).length + 1
    ∧ alookup ((1 : ℤ), (1 : ℤ), (2202 : ℤ))
        (apply_temporal_smoothing [((1, 1, 2201), 10)] 1 1 2202 10 1 1 0 1).2
        = some (smoothedValue [((1, 1, 2201), 10)] 1 1 2202 10 1 1 0 1) :=
  c4_amended [((1, 1, 2201), 10)] 1 1 2202 10 1 1 0 1

/-! ### Claim C5 -/

/-- Claim C5, confirmed.  The previous-period lookup uses the literal key
`(geo_key, product_key, time_key - 1)`.  Generated time keys have the form
YYWW with week number ≥ 1, so every key ever stored has `time_key % 100 ≥ 1`.
For a call in the first week of a year (`time_key % 100 = 1`) the looked-up
key has week component 0, which is never a generated period, so the lookup
finds nothing and the call takes the no-history branch `base * trend *
jitter` — the AR(1) blend never carries a series across a year boundary, even
when the series was observed in week 52 of the previous year. -/
theorem c5_year_boundary (hist : List ((ℤ × ℤ × ℤ) × ℚ)) (g p t : ℤ)
    (base trend beta epsilon jitter : ℚ)
    (hhist : ∀ e ∈ hist, 1 ≤ e.1.2.2 % 100)
    (ht : t % 100 = 1) :
    alookup (g, p, t - 1) hist = none
    ∧ (apply_temporal_smoothing hist g p t base trend beta epsilon jitter).1
        = max 0 (base * trend * jitter) := by
  have hkey : ∀ e ∈ hist, e.1 ≠ (g, p, t - 1) := by
    intro e he hcontra
    have h2 : e.1.2.2 = t - 1 := by rw [hcontra]
    have h3 : (t - 1) % 100 = 0 := by omega
    have h4 := hhist e he
    rw [h2, h3] at h4
    omega
  have hnone : alookup (g, p, t - 1) hist = none :=
    alookup_eq_none_of_forall _ hist hkey
  refine ⟨hnone, ?_⟩
  unfold apply_temporal_smoothing smoothedValue
  rw [hnone]

/-- Claim C5: witness.  The history holds an entry for week 52 of year 2022
(time key 2252) for series (1, 1); the call for week 1 of 2023 (time key
2301) looks up key (1, 1, 2300), finds nothing, and uses the no-history
formula. -/
theorem c5_witness :
    alookup ((1 : ℤ), (1 : ℤ), (2300 : ℤ)) [((1, 1, 2252), (50 : ℚ))] = none
    ∧ (apply_temporal_smoothing [((1, 1, 2252), 50)] 1 1 2301 10 1 1 0 1).1
        = max 0 (10 * 1 * 1) :=
  c5_year_boundary [((1, 1, 2252), 50)] 1 1 2301 10 1 1 0 1
    (by decide) (by decide)

/-! ## String helpers

Python's `pat in s` substring test and the case-folded variants used by
`_get_store_type`, `_identify_big_bite_products` and
`_identify_seasonal_products`, modelled over character lists. -/

/-- Whether `pat` is a prefix of `s` (character lists). -/
def hasPrefixChars : List Char → List Char → Bool
  | [], _ => true
  | _ :: _, [] => false
  | p :: ps, c :: cs => p == c && hasPrefixChars ps cs

/-- Whether `pat` occurs as a contiguous sublist of the second argument. -/
def charsContain (pat : List Char) : List Char → Bool
  | [] => pat.isEmpty
  | c :: cs => hasPrefixChars pat (c :: cs) || charsContain pat cs

/-- Python `pat in s` (case sensitive substring test). -/
def containsSub (s pat : String) : Bool := charsContain pat.data s.data

/-- Python `pat in s.lower()`; `pat` is supplied in lower case. -/
def containsLowerSub (s pat : String) : Bool :=
  charsContain pat.data (s.data.map Char.toLower)

/-- pandas `s.str.contains(pat, case=False)` for one alternative of the
pattern; `pat` is supplied in upper case. -/
def containsUpperSub (s pat : String) : Bool :=
  charsContain pat.data (s.data.map Char.toUpper)

/-! ## HierarchicalSalesModel (statistical_models.py, lines 23-155)

The geography dataframe rows carry the four columns the model reads
(`parent_description` is never read and is omitted).  The random draws are an
explicit oracle (`AllocDraws`), with i.i.d. per-entity draws indexed by the
geography key they are drawn for. -/

/-- One row of the geography dimension dataframe. -/
structure GeoRow where
  geography_key : ℤ
  geography_description : String
  parent_key : Option ℤ
  hierarchy_level : ℤ
deriving DecidableEq

/-- `SalesParameters` dataclass (lines 14-20). -/
structure SalesParameters where
  mean : ℚ
  std : ℚ
  min_val : ℚ
  max_val : ℚ
deriving DecidableEq

/-- The `store_params` table (lines 32-39); the fallback arm is the `major`
profile, which is total because `_get_store_type` only produces the six type
names. -/
def store_params : String → SalesParameters
  | "IRI All Outlets" => ⟨6, 5 / 2, 10, 100000⟩
  | "premium" => ⟨11 / 2, 2, 5, 50000⟩
  | "discount" => ⟨9 / 2, 23 / 10, 1, 30000⟩
  | "online" => ⟨4, 2, 1, 20000⟩
  | "convenience" => ⟨7 / 2, 9 / 5, 1 / 2, 10000⟩
  | _ => ⟨5, 11 / 5, 2, 40000⟩

/-- `HierarchicalSalesModel._get_store_type` (lines 71-86). -/
def get_store_type (store_name : String) : String :=
  if store_name = "IRI All Outlets" then "IRI All Outlets"
  else if containsLowerSub store_name ("waitrose") then "premium"
  else if containsLowerSub store_name ("aldi") || containsLowerSub store_name ("lidl")
      || containsLowerSub store_name ("poundland") then "discount"
  else if containsLowerSub store_name ("online") then "online"
  else if containsLowerSub store_name ("express") || containsLowerSub store_name ("local")
      || containsLowerSub store_name ("metro")
      || containsLowerSub store_name ("convenience") then "convenience"
  else "major"

/-- `np.clip(x, lo, hi)`. -/
def clip (x lo hi : ℚ) : ℚ := min (max x lo) hi

/-- `_build_hierarchy` (lines 44-69): the children of a node, in dataframe
row order. -/
def childrenOf (geo : List GeoRow) (k : ℤ) : List ℤ :=
  (geo.filter (fun r => r.parent_key = some k)).map (fun r => r.geography_key)

/-- Oracle for the random draws consumed by one call of
`generate_hierarchical_sales`. -/
structure AllocDraws where
  /-- `np.random.lognormal(params.mean, params.std)` — always positive. -/
  root_draw : ℚ
  /-- `np.random.uniform(0.9, 1.1)` drawn for a level-1 store (line 127). -/
  jitter : ℤ → ℚ
  /-- `np.random.uniform(0.8, 1.2)` drawn for a level-1 store (line 132). -/
  noise : ℤ → ℚ
  /-- `np.random.uniform(0.3, 0.7)` drawn for a parent with children. -/
  child_pct : ℤ → ℚ
  /-- `np.random.uniform(0.1, 0.3)` drawn for an online child. -/
  online_pct : ℤ → ℚ
  /-- `np.random.uniform(0.2, 0.5)` drawn for a non-online child. -/
  child_frac : ℤ → ℚ

/-- The raw store-type weight of a level-1 store (lines 109-117). -/
def storeWeight (r : GeoRow) : ℚ :=
  let t := get_store_type r.geography_description
  if t = "premium" then 3 / 2 else if t = "discount" then 7 / 10 else 1

/-- The level-1 stores paired with their normalised weights (lines 106-120). -/
def level1WeightedStores (geo : List GeoRow) : List (GeoRow × ℚ) :=
  let stores := geo.filter (fun r => r.hierarchy_level = 1)
  let raw := stores.map storeWeight
  let wsum := raw.sum
  stores.zip (raw.map (fun w => w / wsum))

/-- Distribution to the children of one level-1 store (lines 136-153): a
pass-down fraction `child_pct` of the parent's value is the remainder; an
online child (name containing `"Online"`, case sensitive) instead gets
`online_pct` of the parent's full value. -/
def allocChildren (geo : List GeoRow) (d : AllocDraws) (parent_key : ℤ)
    (store_sales : ℚ) : List (ℤ × ℚ) :=
  let children := childrenOf geo parent_key
  let remaining := store_sales * d.child_pct parent_key
  children.filterMap (fun ck =>
    match geo.find? (fun r => r.geography_key = ck) with
    | none => none
    | some crow =>
      if containsSub crow.geography_description ("Online") then
        some (ck, store_sales * d.online_pct ck)
      else
        some (ck, remaining * d.child_frac ck))

/-- The loop body for one level-1 store (lines 123-153): skip the root row,
otherwise compute the store's clipped allocation followed by its children's
entries. -/
def level1Entry (geo : List GeoRow) (d : AllocDraws) (iri_key : ℤ)
    (level1_target : ℚ) (sw : GeoRow × ℚ) : List (ℤ × ℚ) :=
  if sw.1.geography_key = iri_key then []
  else
    let params := store_params (get_store_type sw.1.geography_description)
    let store_sales :=
      clip (level1_target * sw.2 * d.jitter sw.1.geography_key
        * d.noise sw.1.geography_key) params.min_val params.max_val
    (sw.1.geography_key, store_sales) :: allocChildren geo d sw.1.geography_key store_sales

/-- Line 94: the key of the first row named `"IRI All Outlets"`. -/
def findIriKey (geo : List GeoRow) : Option ℤ :=
  ((geo.filter (fun r => r.geography_description = "IRI All Outlets")).map
    (fun r => r.geography_key)).head?

/-- `HierarchicalSalesModel.generate_hierarchical_sales` (lines 88-155).
`none` models the uncaught `IndexError` raised by `.iloc[0]` on line 94 when
no row is named `"IRI All Outlets"` — the call aborts before any allocation
is produced.  `product_key` and `time_key` are parameters the source function
also never reads. -/
def generate_hierarchical_sales (geo : List GeoRow) (d : AllocDraws)
    (product_key time_key : ℤ) (base_multiplier : ℚ) :
    Option (List (ℤ × ℚ)) :=
  match findIriKey geo with
  | none => none
  | some iri_key =>
    let params := store_params ("IRI All Outlets")
    let iri_sales := clip (d.root_draw * base_multiplier) params.min_val params.max_val
    let level1_target := iri_sales / 2.5
    some ((iri_key, iri_sales) ::
      ((level1WeightedStores geo).map (level1Entry geo d iri_key level1_target)).flatten)

/-- The geography dimension generated by
`GeographyDimensionGenerator.generate_geography`
(generate_rgm_data.py, lines 568-822), in dataframe row order. -/
def ukGeography : List GeoRow :=
  [⟨27000001, "IRI All Outlets", none, 0⟩,
   ⟨27700001, "Aldi", some 27000001, 1⟩,
   ⟨27300001, "Asda", some 27000001, 1⟩,
   ⟨27990002, "B&M", some 27000001, 1⟩,
   ⟨27950002, "Booker", some 27000001, 1⟩,
   ⟨27900001, "Boots", some 27000001, 1⟩,
   ⟨27600001, "Co-op", some 27000001, 1⟩,
   ⟨27800001, "Convenience", some 27000001, 1⟩,
   ⟨27950001, "Costco", some 27000001, 1⟩,
   ⟨27800004, "Costcutter", some 27000001, 1⟩,
   ⟨27990003, "Home Bargains", some 27000001, 1⟩,
   ⟨27700002, "Lidl", some 27000001, 1⟩,
   ⟨27800003, "Londis", some 27000001, 1⟩,
   ⟨27400001, "Morrisons", some 27000001, 1⟩,
   ⟨27800006, "Nisa", some 27000001, 1⟩,
   ⟨27990001, "Poundland", some 27000001, 1⟩,
   ⟨27800005, "Premier", some 27000001, 1⟩,
   ⟨27200001, "Sainsburys", some 27000001, 1⟩,
   ⟨27800002, "Spar", some 27000001, 1⟩,
   ⟨27900003, "Superdrug", some 27000001, 1⟩,
   ⟨27100001, "Tesco", some 27000001, 1⟩,
   ⟨27500001, "Waitrose", some 27000001, 1⟩,
   ⟨27300002, "Asda Online", some 27300001, 2⟩,
   ⟨27900002, "Boots Online", some 27900001, 2⟩,
   ⟨27600002, "Co-op Online", some 27600001, 2⟩,
   ⟨27400002, "Morrisons Online", some 27400001, 2⟩,
   ⟨27200002, "Sainsburys Online", some 27200001, 2⟩,
   ⟨27200003, "Sainsburys Local", some 27200001, 2⟩,
   ⟨27900004, "Superdrug Online", some 27900003, 2⟩,
   ⟨27100002, "Tesco Online", some 27100001, 2⟩,
   ⟨27100003, "Tesco Express", some 27100001, 2⟩,
   ⟨27100004, "Tesco Metro", some 27100001, 2⟩,
   ⟨27100005, "Tesco Extra", some 27100001, 2⟩,
   ⟨27500002, "Waitrose Online", some 27500001, 2⟩]

/-! ### Evaluation bundles for the generator's geography

String-level evaluations proved once by kernel computation, so that the
larger proofs below never have to unfold the character-list functions. -/

/-- `_get_store_type` on each store name of the generated geography. -/
theorem ukStoreTypes :
    get_store_type ("IRI All Outlets") = "IRI All Outlets"
  ∧ get_store_type ("Aldi") = "discount"
  ∧ get_store_type ("Asda") = "major"
  ∧ get_store_type ("B&M") = "major"
  ∧ get_store_type ("Booker") = "major"
  ∧ get_store_type ("Boots") = "major"
  ∧ get_store_type ("Co-op") = "major"
  ∧ get_store_type ("Convenience") = "convenience"
  ∧ get_store_type ("Costco") = "major"
  ∧ get_store_type ("Costcutter") = "major"
  ∧ get_store_type ("Home Bargains") = "major"
  ∧ get_store_type ("Lidl") = "discount"
  ∧ get_store_type ("Londis") = "major"
  ∧ get_store_type ("Morrisons") = "major"
  ∧ get_store_type ("Nisa") = "major"
  ∧ get_store_type ("Poundland") = "discount"
  ∧ get_store_type ("Premier") = "major"
  ∧ get_store_type ("Sainsburys") = "major"
  ∧ get_store_type ("Spar") = "major"
  ∧ get_store_type ("Superdrug") = "major"
  ∧ get_store_type ("Tesco") = "major"
  ∧ get_store_type ("Waitrose") = "premium" := by decide

/-- The case-sensitive `'Online' in child_name` test on each level-2 name. -/
theorem ukOnlineNames :
    containsSub ("Asda Online") ("Online") = true
  ∧ containsSub ("Boots Online") ("Online") = true
  ∧ containsSub ("Co-op Online") ("Online") = true
  ∧ containsSub ("Morrisons Online") ("Online") = true
  ∧ containsSub ("Sainsburys Online") ("Online") = true
  ∧ containsSub ("Sainsburys Local") ("Online") = false
  ∧ containsSub ("Superdrug Online") ("Online") = true
  ∧ containsSub ("Tesco Online") ("Online") = true
  ∧ containsSub ("Tesco Express") ("Online") = false
  ∧ containsSub ("Tesco Metro") ("Online") = false
  ∧ containsSub ("Tesco Extra") ("Online") = false
  ∧ containsSub ("Waitrose Online") ("Online") = true := by decide

/-- Store-type names are pairwise distinct where `storeWeight` compares
them. -/
theorem stringNeFacts :
    (("discount" : String) ≠ "premium")
  ∧ (("major" : String) ≠ "premium") ∧ (("major" : String) ≠ "discount")
  ∧ (("convenience" : String) ≠ "premium") ∧ (("convenience" : String) ≠ "discount")
  ∧ (("IRI All Outlets" : String) ≠ "premium")
  ∧ (("IRI All Outlets" : String) ≠ "discount") := by decide

/-- The `store_params` table, evaluated at each store type name. -/
theorem storeParamsEval :
    store_params ("IRI All Outlets") = ⟨6, 5 / 2, 10, 100000⟩
  ∧ store_params ("premium") = ⟨11 / 2, 2, 5, 50000⟩
  ∧ store_params ("discount") = ⟨9 / 2, 23 / 10, 1, 30000⟩
  ∧ store_params ("online") = ⟨4, 2, 1, 20000⟩
  ∧ store_params ("convenience") = ⟨7 / 2, 9 / 5, 1 / 2, 10000⟩
  ∧ store_params ("major") = ⟨5, 11 / 5, 2, 40000⟩ := ⟨rfl, rfl, rfl, rfl, rfl, rfl⟩

/-! ### Claim C1 -/

/-- Draws for the claim C1 counterexample; every value lies inside the range
of the uniform distribution the source draws it from (`np.random.uniform(a,
b)` yields values in [a, b), with a attainable). -/
def c1Draws : AllocDraws where
  root_draw := 1000
  jitter := fun _ => 1
  noise := fun _ => 1
  child_pct := fun k => if k = 27100001 then 69 / 100 else 1 / 2
  online_pct := fun k => if k = 27100002 then 29 / 100 else 1 / 5
  child_frac := fun k =>
    if k = 27100003 ∨ k = 27100004 ∨ k = 27100005 then 49 / 100 else 3 / 10

/-- The allocation mapping produced on the generator's real geography with
the draws of `c1Draws`. -/
def c1Sales : List (ℤ × ℚ) :=
  (generate_hierarchical_sales ukGeography c1Draws 1 2201 1).getD []

/-- The value of `c1Sales`, written out (root entry first, then each level-1
store's entry followed by its children's entries, in dataframe row order). -/
def c1SalesValue : List (ℤ × ℚ) :=
  [(27000001, 1000),
   (27700001, 1400 / 103),
   (27300001, 2000 / 103), (27300002, 400 / 103),
   (27990002, 2000 / 103),
   (27950002, 2000 / 103),
   (27900001, 2000 / 103), (27900002, 400 / 103),
   (27600001, 2000 / 103), (27600002, 400 / 103),
   (27800001, 2000 / 103),
   (27950001, 2000 / 103),
   (27800004, 2000 / 103),
   (27990003, 2000 / 103),
   (27700002, 1400 / 103),
   (27800003, 2000 / 103),
   (27400001, 2000 / 103), (27400002, 400 / 103),
   (27800006, 2000 / 103),
   (27990001, 1400 / 103),
   (27800005, 2000 / 103),
   (27200001, 2000 / 103), (27200002, 400 / 103), (27200003, 300 / 103),
   (27800002, 2000 / 103),
   (27900003, 2000 / 103), (27900004, 400 / 103),
   (27100001, 2000 / 103),
   (27100002, 580 / 103), (27100003, 3381 / 515),
   (27100004, 3381 / 515), (27100005, 3381 / 515),
   (27500001, 3000 / 103), (27500002, 600 / 103)]

set_option maxHeartbeats 2000000 in
/-- Claim C1, counterexample.  On the generator's own geography, Tesco
(key 27100001) has three non-online children (Express, Metro, Extra) and one
online child.  With pass-down fraction 0.69, each non-online child drawing
fraction 0.49 and the online child drawing 0.29 — all inside the uniform
ranges the code draws from — the children receive
(3 · 0.69 · 0.49 + 0.29) ≈ 1.304 times the parent's allocation, so the
parent is allocated strictly LESS than the sum of its children. -/
theorem c1_counterexample :
    (generate_hierarchical_sales ukGeography c1Draws 1 2201 1).isSome = true
    ∧ childrenOf ukGeography 27100001 = [27100002, 27100003, 27100004, 27100005]
    ∧ (alookup 27100001 c1Sales).getD 0
        < (alookup 27100002 c1Sales).getD 0 + (alookup 27100003 c1Sales).getD 0
          + (alookup 27100004 c1Sales).getD 0 + (alookup 27100005 c1Sales).getD 0 := by
  have hg : generate_hierarchical_sales ukGeography c1Draws 1 2201 1 = some c1SalesValue := by
    norm_num [generate_hierarchical_sales, findIriKey, ukGeography, c1Draws,
      level1WeightedStores, level1Entry, allocChildren, childrenOf, storeWeight,
      storeParamsEval, clip, min_def, max_def, ukStoreTypes, ukOnlineNames,
      stringNeFacts, c1SalesValue, List.find?, List.filterMap]
  have hs : c1Sales = c1SalesValue := by unfold c1Sales; rw [hg]; rfl
  refine ⟨by rw [hg]; rfl, by decide, ?_⟩
  rw [hs]
  norm_num [alookup, c1SalesValue]

/-- Claim C1, amended.  Each individual child is allocated strictly less than
its parent: a non-online child receives `child_pct · child_frac <
0.7 · 0.5 = 0.35` of the parent and an online child receives `online_pct <
0.3` of the parent.  The claim's stronger statement — parent strictly greater
than the SUM of its children — fails whenever a parent has three or more
non-online children, as the counterexample on Tesco shows. -/
theorem c1_amended (geo : List GeoRow) (d : AllocDraws) (pk ck : ℤ) (s v : ℚ)
    (hs : 0 < s)
    (hpct_lo : 3 / 10 ≤ d.child_pct pk) (hpct_hi : d.child_pct pk < 7 / 10)
    (honl_lo : 1 / 10 ≤ d.online_pct ck) (honl_hi : d.online_pct ck < 3 / 10)
    (hfrac_lo : 1 / 5 ≤ d.child_frac ck) (hfrac_hi : d.child_frac ck < 1 / 2)
    (hmem : (ck, v) ∈ allocChildren geo d pk s) :
    v < s := by
  simp only [allocChildren, List.mem_filterMap] at hmem
  obtain ⟨a, _, hfa⟩ := hmem
  cases hfind : geo.find? (fun r => r.geography_key = a) with
  | none => rw [hfind] at hfa; cases hfa
  | some crow =>
    rw [hfind] at hfa
    dsimp only at hfa
    by_cases hon : containsSub crow.geography_description ("Online") = true
    · rw [if_pos hon] at hfa
      injection hfa with hpair
      injection hpair with ha hv
      subst ha
      nlinarith [hv, hs, honl_hi]
    · rw [if_neg hon] at hfa
      injection hfa with hpair
      injection hpair with ha hv
      subst ha
      have hpf : d.child_pct pk * d.child_frac a < 7 / 20 := by
        nlinarith [hpct_lo, hpct_hi, hfrac_lo, hfrac_hi]
      nlinarith [hv, hs, hpf]

/-- Claim C1, amended: witness.  On the real geography with the
counterexample draws, Tesco Online's entry is 0.29 of a parent value of 1,
strictly below the parent. -/
theorem c1_witness :
    ((27100002 : ℤ), (29 / 100 : ℚ)) ∈ allocChildren ukGeography c1Draws 27100001 1
    ∧ (29 / 100 : ℚ) < 1 := by
  have hac : allocChildren ukGeography c1Draws 27100001 1
      = [(27100002, 29 / 100), (27100003, 3381 / 10000),
         (27100004, 3381 / 10000), (27100005, 3381 / 10000)] := by
    norm_num [allocChildren, childrenOf, ukGeography, c1Draws, ukOnlineNames,
      List.find?, List.filterMap]
  have hmem : ((27100002 : ℤ), (29 / 100 : ℚ)) ∈ allocChildren ukGeography c1Draws 27100001 1 := by
    rw [hac]
    norm_num
  exact ⟨hmem, c1_amended ukGeography c1Draws 27100001 27100002 1 (29 / 100)
    (by norm_num) (by norm_num [c1Draws]) (by norm_num [c1Draws])
    (by norm_num [c1Draws]) (by norm_num [c1Draws]) (by norm_num [c1Draws])
    (by norm_num [c1Draws]) hmem⟩

/-! ### Claim C6 -/

/-- Sum of the values of the entries of `m` whose key belongs to `keys`. -/
def sumKeys (keys : List ℤ) (m : List (ℤ × ℚ)) : ℚ :=
  ((m.filter (fun e => keys.contains e.1)).map (fun e => e.2)).sum

/-- The keys of the level-1 rows of a geography. -/
def level1Keys (geo : List GeoRow) : List ℤ :=
  (geo.filter (fun r => r.hierarchy_level = 1)).map (fun r => r.geography_key)

/-- The sum of the level-1 allocations of a produced mapping. -/
def sumLevel1 (geo : List GeoRow) (m : List (ℤ × ℚ)) : ℚ :=
  sumKeys (level1Keys geo) m

theorem sumKeys_append (keys : List ℤ) (a b : List (ℤ × ℚ)) :
    sumKeys keys (a ++ b) = sumKeys keys a + sumKeys keys b := by
  unfold sumKeys
  rw [List.filter_append, List.map_append, List.sum_append]

theorem sumKeys_cons_true (keys : List ℤ) (e : ℤ × ℚ) (m : List (ℤ × ℚ))
    (h : keys.contains e.1 = true) :
    sumKeys keys (e :: m) = e.2 + sumKeys keys m := by
  unfold sumKeys
  rw [List.filter_cons_of_pos (by simpa using h), List.map_cons, List.sum_cons]

theorem sumKeys_cons_false (keys : List ℤ) (e : ℤ × ℚ) (m : List (ℤ × ℚ))
    (h : keys.contains e.1 = false) :
    sumKeys keys (e :: m) = sumKeys keys m := by
  unfold sumKeys
  rw [List.filter_cons_of_neg (by intro hc; rw [h] at hc; exact Bool.noConfusion hc)]

theorem sumKeys_zero_of_none (keys : List ℤ) (m : List (ℤ × ℚ))
    (h : ∀ e ∈ m, keys.contains e.1 = false) : sumKeys keys m = 0 := by
  unfold sumKeys
  have hf : m.filter (fun e => keys.contains e.1) = [] := by
    rw [List.filter_eq_nil_iff]
    intro e he hc
    rw [h e he] at hc
    exact Bool.noConfusion hc
  rw [hf]
  rfl

/-- Every entry produced by `allocChildren` is keyed by a child of the
parent. -/
theorem allocChildren_keys (geo : List GeoRow) (d : AllocDraws) (pk : ℤ)
    (s : ℚ) : ∀ e ∈ allocChildren geo d pk s, e.1 ∈ childrenOf geo pk := by
  intro e he
  simp only [allocChildren, List.mem_filterMap] at he
  obtain ⟨a, ha, hfa⟩ := he
  cases hfind : geo.find? (fun r => r.geography_key = a) with
  | none => rw [hfind] at hfa; cases hfa
  | some crow =>
    rw [hfind] at hfa
    dsimp only at hfa
    by_cases hon : containsSub crow.geography_description ("Online") = true
    · rw [if_pos hon] at hfa
      injection hfa with hpair
      have : e.1 = a := by rw [← hpair]
      rw [this]; exact ha
    · rw [if_neg hon] at hfa
      injection hfa with hpair
      have : e.1 = a := by rw [← hpair]
      rw [this]; exact ha

/-- A level-1 store's clipped allocation stays within the envelope the
jitter and noise draws allow, provided the clip bounds are not active. -/
theorem clip_jitter_bound (T w u v mn mx : ℚ) (hT : 0 ≤ T) (hw : 0 ≤ w)
    (hu1 : 9 / 10 ≤ u) (hu2 : u ≤ 11 / 10) (hv1 : 8 / 10 ≤ v) (hv2 : v ≤ 12 / 10)
    (hmn : mn ≤ T * w * (72 / 100)) (hmx : T * w * (132 / 100) ≤ mx) :
    (72 / 100) * (T * w) ≤ clip (T * w * u * v) mn mx
    ∧ clip (T * w * u * v) mn mx ≤ (132 / 100) * (T * w) := by
  have hTw : 0 ≤ T * w := mul_nonneg hT hw
  have huv1 : 72 / 100 ≤ u * v := by nlinarith
  have huv2 : u * v ≤ 132 / 100 := by nlinarith
  have hlo : T * w * (72 / 100) ≤ T * w * u * v := by
    nlinarith [mul_le_mul_of_nonneg_left huv1 hTw]
  have hhi : T * w * u * v ≤ T * w * (132 / 100) := by
    nlinarith [mul_le_mul_of_nonneg_left huv2 hTw]
  unfold clip
  rw [max_eq_left (le_trans hmn hlo), min_eq_left (le_trans hhi hmx)]
  constructor <;> linarith

/-- The sum of the level-1 entries produced by the level-1 loop is bounded
by the envelope `[0.72, 1.32]` times the target times the weight total, for
any run of stores whose clip bounds are not active and whose children do not
carry level-1 keys. -/
theorem level1_sum_bound (geo : List GeoRow) (d : AllocDraws) (iri_key : ℤ)
    (T : ℚ) (keys : List ℤ) (hT : 0 ≤ T) :
    ∀ l : List (GeoRow × ℚ),
      (∀ sw ∈ l,
        sw.1.geography_key ≠ iri_key
        ∧ keys.contains sw.1.geography_key = true
        ∧ (∀ ck ∈ childrenOf geo sw.1.geography_key, keys.contains ck = false)
        ∧ 0 ≤ sw.2
        ∧ 9 / 10 ≤ d.jitter sw.1.geography_key ∧ d.jitter sw.1.geography_key ≤ 11 / 10
        ∧ 8 / 10 ≤ d.noise sw.1.geography_key ∧ d.noise sw.1.geography_key ≤ 12 / 10
        ∧ (store_params (get_store_type sw.1.geography_description)).min_val
            ≤ T * sw.2 * (72 / 100)
        ∧ T * sw.2 * (132 / 100)
            ≤ (store_params (get_store_type sw.1.geography_description)).max_val) →
      (72 / 100) * (T * (l.map (fun sw => sw.2)).sum)
          ≤ sumKeys keys ((l.map (level1Entry geo d iri_key T)).flatten)
      ∧ sumKeys keys ((l.map (level1Entry geo d iri_key T)).flatten)
          ≤ (132 / 100) * (T * (l.map (fun sw => sw.2)).sum) := by
  intro l
  induction l with
  | nil => intro _; simp [sumKeys]
  | cons sw rest ih =>
    intro h
    obtain ⟨h1, h2, h3, h4, h5, h6, h7, h8, h9, h10⟩ := h sw (List.mem_cons_self sw rest)
    have hrest := ih (fun x hx => h x (List.mem_cons_of_mem _ hx))
    have hblock : level1Entry geo d iri_key T sw
        = (sw.1.geography_key,
            clip (T * sw.2 * d.jitter sw.1.geography_key * d.noise sw.1.geography_key)
              (store_params (get_store_type sw.1.geography_description)).min_val
              (store_params (get_store_type sw.1.geography_description)).max_val)
          :: allocChildren geo d sw.1.geography_key
              (clip (T * sw.2 * d.jitter sw.1.geography_key * d.noise sw.1.geography_key)
                (store_params (get_store_type sw.1.geography_description)).min_val
                (store_params (get_store_type sw.1.geography_description)).max_val) := by
      unfold level1Entry
      rw [if_neg h1]
    have hx := clip_jitter_bound T sw.2 (d.jitter sw.1.geography_key)
      (d.noise sw.1.geography_key)
      (store_params (get_store_type sw.1.geography_description)).min_val
      (store_params (get_store_type sw.1.geography_description)).max_val
      hT h4 h5 h6 h7 h8 h9 h10
    have hchild : sumKeys keys (allocChildren geo d sw.1.geography_key
        (clip (T * sw.2 * d.jitter sw.1.geography_key * d.noise sw.1.geography_key)
          (store_params (get_store_type sw.1.geography_description)).min_val
          (store_params (get_store_type sw.1.geography_description)).max_val)) = 0 :=
      sumKeys_zero_of_none _ _ (fun e he => h3 e.1 (allocChildren_keys _ _ _ _ e he))
    simp only [List.map_cons, List.flatten_cons, List.sum_cons]
    rw [sumKeys_append, hblock, sumKeys_cons_true _ _ _ h2, hchild]
    dsimp only
    have e1 : (72 / 100) * (T * (sw.2 + (rest.map (fun sw => sw.2)).sum))
        = (72 / 100) * (T * sw.2) + (72 / 100) * (T * (rest.map (fun sw => sw.2)).sum) := by
      ring
    have e2 : (132 / 100) * (T * (sw.2 + (rest.map (fun sw => sw.2)).sum))
        = (132 / 100) * (T * sw.2) + (132 / 100) * (T * (rest.map (fun sw => sw.2)).sum) := by
      ring
    constructor
    · rw [e1]
      have := hrest.1
      linarith [hx.1]
    · rw [e2]
      have := hrest.2
      linarith [hx.2]

/-- `store_params ∘ _get_store_type` on each level-1 store name of the
generated geography. -/
theorem ukStoreParamsAll :
    store_params (get_store_type ("Aldi")) = ⟨9 / 2, 23 / 10, 1, 30000⟩
  ∧ store_params (get_store_type ("Asda")) = ⟨5, 11 / 5, 2, 40000⟩
  ∧ store_params (get_store_type ("B&M")) = ⟨5, 11 / 5, 2, 40000⟩
  ∧ store_params (get_store_type ("Booker")) = ⟨5, 11 / 5, 2, 40000⟩
  ∧ store_params (get_store_type ("Boots")) = ⟨5, 11 / 5, 2, 40000⟩
  ∧ store_params (get_store_type ("Co-op")) = ⟨5, 11 / 5, 2, 40000⟩
  ∧ store_params (get_store_type ("Convenience")) = ⟨7 / 2, 9 / 5, 1 / 2, 10000⟩
  ∧ store_params (get_store_type ("Costco")) = ⟨5, 11 / 5, 2, 40000⟩
  ∧ store_params (get_store_type ("Costcutter")) = ⟨5, 11 / 5, 2, 40000⟩
  ∧ store_params (get_store_type ("Home Bargains")) = ⟨5, 11 / 5, 2, 40000⟩
  ∧ store_params (get_store_type ("Lidl")) = ⟨9 / 2, 23 / 10, 1, 30000⟩
  ∧ store_params (get_store_type ("Londis")) = ⟨5, 11 / 5, 2, 40000⟩
  ∧ store_params (get_store_type ("Morrisons")) = ⟨5, 11 / 5, 2, 40000⟩
  ∧ store_params (get_store_type ("Nisa")) = ⟨5, 11 / 5, 2, 40000⟩
  ∧ store_params (get_store_type ("Poundland")) = ⟨9 / 2, 23 / 10, 1, 30000⟩
  ∧ store_params (get_store_type ("Premier")) = ⟨5, 11 / 5, 2, 40000⟩
  ∧ store_params (get_store_type ("Sainsburys")) = ⟨5, 11 / 5, 2, 40000⟩
  ∧ store_params (get_store_type ("Spar")) = ⟨5, 11 / 5, 2, 40000⟩
  ∧ store_params (get_store_type ("Superdrug")) = ⟨5, 11 / 5, 2, 40000⟩
  ∧ store_params (get_store_type ("Tesco")) = ⟨5, 11 / 5, 2, 40000⟩
  ∧ store_params (get_store_type ("Waitrose")) = ⟨11 / 2, 2, 5, 50000⟩ :=
  ⟨rfl, rfl, rfl, rfl, rfl, rfl, rfl, rfl, rfl, rfl, rfl,
   rfl, rfl, rfl, rfl, rfl, rfl, rfl, rfl, rfl, rfl⟩

/-- The level-1 stores of the generated geography with their normalised
weights: the raw weights are 0.7 for the three discounters, 1.5 for
Waitrose and 1 otherwise, total 20.6. -/
def ukLevel1Pairs : List (GeoRow × ℚ) :=
  [(⟨27700001, "Aldi", some 27000001, 1⟩, 7 / 206),
   (⟨27300001, "Asda", some 27000001, 1⟩, 5 / 103),
   (⟨27990002, "B&M", some 27000001, 1⟩, 5 / 103),
   (⟨27950002, "Booker", some 27000001, 1⟩, 5 / 103),
   (⟨27900001, "Boots", some 27000001, 1⟩, 5 / 103),
   (⟨27600001, "Co-op", some 27000001, 1⟩, 5 / 103),
   (⟨27800001, "Convenience", some 27000001, 1⟩, 5 / 103),
   (⟨27950001, "Costco", some 27000001, 1⟩, 5 / 103),
   (⟨27800004, "Costcutter", some 27000001, 1⟩, 5 / 103),
   (⟨27990003, "Home Bargains", some 27000001, 1⟩, 5 / 103),
   (⟨27700002, "Lidl", some 27000001, 1⟩, 7 / 206),
   (⟨27800003, "Londis", some 27000001, 1⟩, 5 / 103),
   (⟨27400001, "Morrisons", some 27000001, 1⟩, 5 / 103),
   (⟨27800006, "Nisa", some 27000001, 1⟩, 5 / 103),
   (⟨27990001, "Poundland", some 27000001, 1⟩, 7 / 206),
   (⟨27800005, "Premier", some 27000001, 1⟩, 5 / 103),
   (⟨27200001, "Sainsburys", some 27000001, 1⟩, 5 / 103),
   (⟨27800002, "Spar", some 27000001, 1⟩, 5 / 103),
   (⟨27900003, "Superdrug", some 27000001, 1⟩, 5 / 103),
   (⟨27100001, "Tesco", some 27000001, 1⟩, 5 / 103),
   (⟨27500001, "Waitrose", some 27000001, 1⟩, 15 / 206)]

set_option maxHeartbeats 2000000 in
/-- Claim C6, amended.  The per-store jitter (`uniform(0.9, 1.1)`) and noise
(`uniform(0.8, 1.2)`) only guarantee that the sum of the level-1 allocations
times 2.5 lies within `[0.72, 1.32]` times the root allocation — deviations
of −28 % / +32 %, far wider than the claim's ±8 % band.  Stated on the
generator's real geography, for a root draw large enough (and small enough)
that no level-1 store hits its clip bounds. -/
theorem c6_amended (d : AllocDraws) (mult : ℚ)
    (hj : ∀ k : ℤ, 9 / 10 ≤ d.jitter k ∧ d.jitter k ≤ 11 / 10)
    (hn : ∀ k : ℤ, 8 / 10 ≤ d.noise k ∧ d.noise k ≤ 12 / 10)
    (hlo : 240 ≤ d.root_draw * mult) (hhi : d.root_draw * mult ≤ 100000) :
    alookup 27000001 ((generate_hierarchical_sales ukGeography d 1 2201 mult).getD [])
        = some (d.root_draw * mult)
    ∧ (72 / 100) * (d.root_draw * mult)
        ≤ (5 / 2) * sumLevel1 ukGeography
            ((generate_hierarchical_sales ukGeography d 1 2201 mult).getD [])
    ∧ (5 / 2) * sumLevel1 ukGeography
            ((generate_hierarchical_sales ukGeography d 1 2201 mult).getD [])
        ≤ (132 / 100) * (d.root_draw * mult) := by
  have hclip : clip (d.root_draw * mult) 10 100000 = d.root_draw * mult := by
    unfold clip
    rw [max_eq_left (by linarith), min_eq_left (by linarith)]
  have hIri : findIriKey ukGeography = some 27000001 := by decide
  have hW : level1WeightedStores ukGeography = ukLevel1Pairs := by
    norm_num [level1WeightedStores, ukGeography, storeWeight, ukStoreTypes,
      stringNeFacts, ukLevel1Pairs]
  have hgen : generate_hierarchical_sales ukGeography d 1 2201 mult
      = some ((27000001, d.root_draw * mult) ::
          ((ukLevel1Pairs.map (level1Entry ukGeography d 27000001
            (d.root_draw * mult / 2.5))).flatten)) := by
    simp only [generate_hierarchical_sales, hIri, storeParamsEval]
    rw [hclip, hW]
  have hT : (0 : ℚ) ≤ d.root_draw * mult / 2.5 := by
    apply div_nonneg (by linarith)
    norm_num
  have hT96 : 96 ≤ d.root_draw * mult / 2.5 := by
    rw [le_div_iff₀ (by norm_num : (0 : ℚ) < 2.5)]
    linarith
  have hT40000 : d.root_draw * mult / 2.5 ≤ 40000 := by
    rw [div_le_iff₀ (by norm_num : (0 : ℚ) < 2.5)]
    linarith
  have hbound := level1_sum_bound ukGeography d 27000001 (d.root_draw * mult / 2.5)
    (level1Keys ukGeography) hT ukLevel1Pairs ?_
  · have hwsum : (ukLevel1Pairs.map (fun sw => sw.2)).sum = 1 := by
      norm_num [ukLevel1Pairs]
    rw [hwsum] at hbound
    have hmap : ((generate_hierarchical_sales ukGeography d 1 2201 mult).getD [])
        = (27000001, d.root_draw * mult) ::
          ((ukLevel1Pairs.map (level1Entry ukGeography d 27000001
            (d.root_draw * mult / 2.5))).flatten) := by
      rw [hgen]
      rfl
    rw [hmap]
    have hroot_not : (level1Keys ukGeography).contains (27000001 : ℤ) = false := by decide
    have hsum : sumLevel1 ukGeography ((27000001, d.root_draw * mult) ::
          ((ukLevel1Pairs.map (level1Entry ukGeography d 27000001
            (d.root_draw * mult / 2.5))).flatten))
        = sumKeys (level1Keys ukGeography)
            ((ukLevel1Pairs.map (level1Entry ukGeography d 27000001
              (d.root_draw * mult / 2.5))).flatten) := by
      unfold sumLevel1
      exact sumKeys_cons_false _ _ _ hroot_not
    rw [hsum]
    have hTR : d.root_draw * mult / 2.5 * 2.5 = d.root_draw * mult :=
      div_mul_cancel₀ _ (by norm_num)
    refine ⟨by simp [alookup], ?_, ?_⟩
    · have := hbound.1
      nlinarith [this]
    · have := hbound.2
      nlinarith [this]
  · intro sw hsw
    fin_cases hsw <;>
      refine ⟨by decide, by decide, by decide, by norm_num, (hj _).1, (hj _).2,
        (hn _).1, (hn _).2, ?_, ?_⟩ <;>
      simp only [ukStoreParamsAll] <;> norm_num <;> linarith

/-- Draws for the claim C6 counterexample: the root lognormal draw is 1000,
every level-1 jitter is at the lower end 0.9 of `uniform(0.9, 1.1)` and
every noise factor at the lower end 0.8 of `uniform(0.8, 1.2)` — all values
the code can draw. -/
def c6Draws : AllocDraws where
  root_draw := 1000
  jitter := fun _ => 9 / 10
  noise := fun _ => 8 / 10
  child_pct := fun _ => 1 / 2
  online_pct := fun _ => 1 / 5
  child_frac := fun _ => 3 / 10

/-- The mapping produced with the draws of `c6Draws`. -/
def c6Sales : List (ℤ × ℚ) :=
  (generate_hierarchical_sales ukGeography c6Draws 1 2201 1).getD []

/-- The value of `c6Sales`, written out. -/
def c6SalesValue : List (ℤ × ℚ) :=
  [(27000001, 1000),
   (27700001, 1008 / 103),
   (27300001, 1440 / 103), (27300002, 288 / 103),
   (27990002, 1440 / 103),
   (27950002, 1440 / 103),
   (27900001, 1440 / 103), (27900002, 288 / 103),
   (27600001, 1440 / 103), (27600002, 288 / 103),
   (27800001, 1440 / 103),
   (27950001, 1440 / 103),
   (27800004, 1440 / 103),
   (27990003, 1440 / 103),
   (27700002, 1008 / 103),
   (27800003, 1440 / 103),
   (27400001, 1440 / 103), (27400002, 288 / 103),
   (27800006, 1440 / 103),
   (27990001, 1008 / 103),
   (27800005, 1440 / 103),
   (27200001, 1440 / 103), (27200002, 288 / 103), (27200003, 216 / 103),
   (27800002, 1440 / 103),
   (27900003, 1440 / 103), (27900004, 288 / 103),
   (27100001, 1440 / 103),
   (27100002, 288 / 103), (27100003, 216 / 103),
   (27100004, 216 / 103), (27100005, 216 / 103),
   (27500001, 2160 / 103), (27500002, 432 / 103)]

set_option maxHeartbeats 2000000 in
/-- Claim C6, counterexample.  With the root draw 1000 (so root allocation
1000) and every jitter and noise draw at its lower end, the level-1
allocations sum to 288, and `288 × 2.5 = 720` differs from the root by
−28 %, far outside the ±8 % band the claim asserts — no clipping is involved. -/
theorem c6_counterexample :
    alookup 27000001 c6Sales = some 1000
    ∧ (5 / 2) * sumLevel1 ukGeography c6Sales = 720
    ∧ (5 / 2) * sumLevel1 ukGeography c6Sales < (92 / 100) * 1000 := by
  have hg : generate_hierarchical_sales ukGeography c6Draws 1 2201 1 = some c6SalesValue := by
    norm_num [generate_hierarchical_sales, findIriKey, ukGeography, c6Draws,
      level1WeightedStores, level1Entry, allocChildren, childrenOf, storeWeight,
      storeParamsEval, clip, min_def, max_def, ukStoreTypes, ukOnlineNames,
      stringNeFacts, c6SalesValue, List.find?, List.filterMap]
  have hs : c6Sales = c6SalesValue := by unfold c6Sales; rw [hg]; rfl
  rw [hs]
  refine ⟨by norm_num [alookup, c6SalesValue], ?_, ?_⟩ <;>
    norm_num [sumLevel1, sumKeys, level1Keys, ukGeography, c6SalesValue]

/-- Draws for the claim C6 amended witness: root draw 1000, all jitter and
noise draws 1 (mid-range). -/
def c6wDraws : AllocDraws where
  root_draw := 1000
  jitter := fun _ => 1
  noise := fun _ => 1
  child_pct := fun _ => 1 / 2
  online_pct := fun _ => 1 / 5
  child_frac := fun _ => 3 / 10

/-- Claim C6, amended: witness at the concrete draws of `c6wDraws`. -/
theorem c6_witness :
    alookup 27000001 ((generate_hierarchical_sales ukGeography c6wDraws 1 2201 1).getD [])
        = some (c6wDraws.root_draw * 1)
    ∧ (72 / 100) * (c6wDraws.root_draw * 1)
        ≤ (5 / 2) * sumLevel1 ukGeography
            ((generate_hierarchical_sales ukGeography c6wDraws 1 2201 1).getD [])
    ∧ (5 / 2) * sumLevel1 ukGeography
            ((generate_hierarchical_sales ukGeography c6wDraws 1 2201 1).getD [])
        ≤ (132 / 100) * (c6wDraws.root_draw * 1) :=
  c6_amended c6wDraws 1
    (fun _ => ⟨by norm_num [c6wDraws], by norm_num [c6wDraws]⟩)
    (fun _ => ⟨by norm_num [c6wDraws], by norm_num [c6wDraws]⟩)
    (by norm_num [c6wDraws]) (by norm_num [c6wDraws])

/-! ### Claim C10 -/

/-- In-range draws used by the claim C10 theorems. -/
def c10Draws : AllocDraws :=
  ⟨100, fun _ => 1, fun _ => 1, fun _ => 1 / 2, fun _ => 1 / 5, fun _ => 3 / 10⟩

/-- A one-node geography with no level-0 row whose only node is nevertheless
named `"IRI All Outlets"`. -/
def geoNoLevel0 : List GeoRow := [⟨1, "IRI All Outlets", none, 1⟩]

/-- Claim C10, counterexample.  A geography containing no root-level
(level-0) node does not necessarily make the allocator fail: the code's only
guard is the lookup of a row *named* `"IRI All Outlets"` (line 94), not a
level check.  On a tree whose single node carries that name at hierarchy
level 1 the allocator succeeds and returns an allocation mapping. -/
theorem c10_counterexample :
    (geoNoLevel0.filter (fun r => r.hierarchy_level = 0)).length = 0
    ∧ generate_hierarchical_sales geoNoLevel0 c10Draws 1 2201 1 = some [(1, 100)] := by
  constructor
  · decide
  · norm_num [generate_hierarchical_sales, findIriKey, geoNoLevel0, c10Draws,
      level1WeightedStores, level1Entry, storeWeight, get_store_type, store_params,
      clip, containsLowerSub, charsContain, hasPrefixChars]

/-- Claim C10, amended.  The allocator fails immediately, producing no
allocation mapping, exactly when the geography contains no row named
`"IRI All Outlets"` (the root aggregate's name); the guard is by name, not by
hierarchy level. -/
theorem c10_amended (geo : List GeoRow) (d : AllocDraws) (p t : ℤ) (m : ℚ)
    (h : ∀ row ∈ geo, row.geography_description ≠ "IRI All Outlets") :
    generate_hierarchical_sales geo d p t m = none := by
  unfold generate_hierarchical_sales findIriKey
  have hfilter : geo.filter (fun r => r.geography_description = "IRI All Outlets") = [] := by
    rw [List.filter_eq_nil_iff]
    intro r hr
    simpa using h r hr
  rw [hfilter]
  rfl

/-- Claim C10, amended: witness on a geography with a level-0 root that does
not carry the name `"IRI All Outlets"` — the allocator fails. -/
theorem c10_witness :
    generate_hierarchical_sales [⟨100, "Tesco", none, 0⟩] c10Draws 1 2201 1 = none :=
  c10_amended [⟨100, "Tesco", none, 0⟩] c10Draws 1 2201 1 (by decide)

/-! ## BrandShareController (statistical_models.py, lines 329-392)

The observation batch is a list of fact records carrying the columns the
period loop produces; the controller reads `product_key`, `time_key` and the
three sales figures and leaves everything else untouched. -/

/-- One row of the products dataframe, restricted to the five columns the
engine reads. -/
structure Product where
  product_key : ℤ
  brand_value : String
  manufacturer_value : String
  segment_value : String
  subsegment_value : String
deriving DecidableEq

/-- One sales observation record as built by the period loop
(generate_rgm_data.py, lines 1177-1188). -/
structure Record where
  geography_key : ℤ
  product_key : ℤ
  time_key : ℤ
  value_sales : ℚ
  unit_sales : ℚ
  volume_sales : ℚ
  base_value_sales : ℚ
  base_unit_sales : ℚ
  store_count : ℤ
  stores_selling : ℤ
deriving DecidableEq

/-- `BrandShareController._identify_big_bite_products` (lines 336-341):
product keys whose brand contains `"BIG BITE"` case-insensitively. -/
def identify_big_bite (products : List Product) : List ℤ :=
  (products.filter (fun p => containsUpperSub p.brand_value ("BIG BITE"))).map
    (fun p => p.product_key)

/-- Total `value_sales` of the period's rows. -/
def periodSales (data : List Record) (t : ℤ) : ℚ :=
  ((data.filter (fun r => r.time_key = t)).map (fun r => r.value_sales)).sum

/-- Total `value_sales` of the period's rows belonging to the designated
brand. -/
def brandPeriodSales (bigBite : List ℤ) (data : List Record) (t : ℤ) : ℚ :=
  ((data.filter (fun r => r.time_key = t ∧ bigBite.contains r.product_key)).map
    (fun r => r.value_sales)).sum

/-- `BrandShareController.calculate_market_share` (lines 343-357). -/
def calculate_market_share (bigBite : List ℤ) (data : List Record) (t : ℤ) : ℚ :=
  if data = [] then 0
  else if data.filter (fun r => r.time_key = t) = [] then 0
  else if 0 < periodSales data t then
    brandPeriodSales bigBite data t / periodSales data t * 100
  else 0

/-- Line 367: `min(7.0, 4.0 + years_elapsed * 0.75)`. -/
def adjusted_min (t : ℤ) : ℚ := min 7 (4 + ((t : ℚ) - 2201) / 52 * (3 / 4))

/-- Line 368: `min(10.0, 6.0 + years_elapsed * 1.0)`. -/
def adjusted_max (t : ℤ) : ℚ := min 10 (6 + ((t : ℚ) - 2201) / 52 * 1)

/-- `BrandShareController.adjust_for_target_share` (lines 359-392).
`target_share` is the `np.random.uniform(adjusted_min, adjusted_max)` draw
made when the current share is out of band.  (The `target_min`/`target_max`
parameters of the source function are never read — the adjusted band
shadows them.) -/
def adjust_for_target_share (bigBite : List ℤ) (data : List Record) (t : ℤ)
    (target_share : ℚ) : List Record :=
  let amin := adjusted_min t
  let amax := adjusted_max t
  let current_share := calculate_market_share bigBite data t
  if current_share < amin ∨ amax < current_share then
    let total := periodSales data t
    let current_bb := brandPeriodSales bigBite data t
    if 0 < current_bb then
      let required := total * (target_share / 100)
      let factor := required / current_bb
      data.map (fun r =>
        if r.time_key = t ∧ bigBite.contains r.product_key then
          { r with value_sales := r.value_sales * factor,
                   unit_sales := r.unit_sales * factor,
                   volume_sales := r.volume_sales * factor }
        else r)
    else data
  else data

theorem brandPeriodSales_cons_of_pos (bigBite : List ℤ) (t : ℤ) (r : Record)
    (rest : List Record)
    (h : r.time_key = t ∧ bigBite.contains r.product_key = true) :
    brandPeriodSales bigBite (r :: rest) t
      = r.value_sales + brandPeriodSales bigBite rest t := by
  unfold brandPeriodSales
  rw [List.filter_cons, decide_eq_true h]
  simp

theorem brandPeriodSales_cons_of_neg (bigBite : List ℤ) (t : ℤ) (r : Record)
    (rest : List Record)
    (h : ¬(r.time_key = t ∧ bigBite.contains r.product_key = true)) :
    brandPeriodSales bigBite (r :: rest) t = brandPeriodSales bigBite rest t := by
  unfold brandPeriodSales
  rw [List.filter_cons, decide_eq_false h]
  simp

/-- Scaling the brand's rows of a period scales the brand's period total. -/
theorem brandPeriodSales_map_scale (bigBite : List ℤ) (t : ℤ) (factor : ℚ) :
    ∀ data : List Record,
      brandPeriodSales bigBite (data.map (fun r =>
        if r.time_key = t ∧ bigBite.contains r.product_key then
          { r with value_sales := r.value_sales * factor,
                   unit_sales := r.unit_sales * factor,
                   volume_sales := r.volume_sales * factor }
        else r)) t
      = factor * brandPeriodSales bigBite data t := by
  intro data
  induction data with
  | nil => simp [brandPeriodSales]
  | cons r rest ih =>
    simp only [List.map_cons]
    by_cases hr : r.time_key = t ∧ bigBite.contains r.product_key = true
    · rw [if_pos hr]
      rw [brandPeriodSales_cons_of_pos _ _ _ _ (by exact hr),
        brandPeriodSales_cons_of_pos _ _ _ _ hr, ih]
      dsimp only
      ring
    · rw [if_neg hr]
      rw [brandPeriodSales_cons_of_neg _ _ _ _ hr,
        brandPeriodSales_cons_of_neg _ _ _ _ hr, ih]

/-! ### Claim C9 -/

/-- Claim C9, confirmed.  When the designated brand's sales for the period
are exactly zero, `adjust_for_target_share` performs no rescale: the inner
`current_big_bite > 0` guard fails (no division is reached), the batch is
returned with every record — value, unit and volume fields included —
unchanged, and the brand's share of the returned batch is 0.  The function
is total: the condition is absorbed locally, never raised. -/
theorem c9_zero_brand_no_rescale (products : List Product) (data : List Record)
    (t : ℤ) (target_share : ℚ)
    (h : brandPeriodSales (identify_big_bite products) data t = 0) :
    adjust_for_target_share (identify_big_bite products) data t target_share = data
    ∧ calculate_market_share (identify_big_bite products)
        (adjust_for_target_share (identify_big_bite products) data t target_share) t = 0 := by
  have hadj : adjust_for_target_share (identify_big_bite products) data t target_share
      = data := by
    unfold adjust_for_target_share
    rw [h]
    norm_num
  refine ⟨hadj, ?_⟩
  rw [hadj]
  unfold calculate_market_share
  split_ifs with h1 h2 h3
  · rfl
  · rfl
  · rw [h]
    ring
  · rfl

/-- Catalog for the claim C3 counterexample: a single product, belonging to
the designated brand. -/
def c3Products : List Product := [⟨1, "BIG BITE CHOCOLATES", "BIG BITE", "X", "Y"⟩]

/-- Batch for the claim C3 counterexample: the period's only observation is
of the brand's product, so the brand's share is 100 %. -/
def c3Data : List Record := [⟨27000001, 1, 2201, 100, 1, 1, 100, 1, 10, 5⟩]

/-- Brand identification evaluated on the concrete one-product catalogs
used by the claim C3 and C9 theorems. -/
theorem bigBiteFacts :
    identify_big_bite c3Products = [(1 : ℤ)]
    ∧ identify_big_bite [⟨1, "BIG BITE ONE", "M", "S", "SS"⟩] = [(1 : ℤ)] := by
  decide

/-- Claim C9: witness.  A batch whose only record belongs to a non-brand
product: the brand's period sales are zero, the batch comes back unchanged
and the share stays 0. -/
theorem c9_witness :
    adjust_for_target_share
        (identify_big_bite [⟨1, "BIG BITE ONE", "M", "S", "SS"⟩])
        [⟨27000001, 2, 2201, 50, 1, 1, 50, 1, 10, 5⟩] 2201 5
      = [⟨27000001, 2, 2201, 50, 1, 1, 50, 1, 10, 5⟩]
    ∧ calculate_market_share (identify_big_bite [⟨1, "BIG BITE ONE", "M", "S", "SS"⟩])
        (adjust_for_target_share
          (identify_big_bite [⟨1, "BIG BITE ONE", "M", "S", "SS"⟩])
          [⟨27000001, 2, 2201, 50, 1, 1, 50, 1, 10, 5⟩] 2201 5) 2201 = 0 :=
  c9_zero_brand_no_rescale [⟨1, "BIG BITE ONE", "M", "S", "SS"⟩]
    [⟨27000001, 2, 2201, 50, 1, 1, 50, 1, 10, 5⟩] 2201 5
    (by norm_num [brandPeriodSales, bigBiteFacts.2])

/-! ### Claim C3 -/

/-- Claim C3, counterexample.  At time key 2201 the band is [4, 6].  The
period's entire value is the brand's (share 100 %, nonzero), so the
controller rescales by `target/100` — but scaling the brand rows scales the
total too, and the post-adjustment share is still 100 %, far outside the
band, although the pre-adjustment brand sales were nonzero. -/
theorem c3_counterexample :
    adjusted_min 2201 = 4 ∧ adjusted_max 2201 = 6
    ∧ brandPeriodSales (identify_big_bite c3Products) c3Data 2201 = 100
    ∧ calculate_market_share (identify_big_bite c3Products)
        (adjust_for_target_share (identify_big_bite c3Products) c3Data 2201 5) 2201 = 100
    ∧ adjusted_max 2201 < 100 := by
  have hbb : identify_big_bite c3Products = [(1 : ℤ)] := bigBiteFacts.1
  norm_num [adjusted_min, adjusted_max, adjust_for_target_share,
    calculate_market_share, periodSales, brandPeriodSales, hbb, c3Data]

/-- Claim C3, amended.  After the rebalance, the designated brand's period
sales equal `target_share` per cent of the PRE-adjustment period total, so
the brand's share measured against the pre-adjustment total lies within
[adjustedMin, adjustedMax].  Measured against the post-adjustment total the
share can remain outside the band (the rescale shifts the total), as the
counterexample shows. -/
theorem c3_amended (bigBite : List ℤ) (data : List Record) (t : ℤ)
    (target_share : ℚ)
    (htarget_lo : adjusted_min t ≤ target_share)
    (htarget_hi : target_share ≤ adjusted_max t)
    (hout : calculate_market_share bigBite data t < adjusted_min t
        ∨ adjusted_max t < calculate_market_share bigBite data t)
    (hbb : 0 < brandPeriodSales bigBite data t)
    (htot : 0 ≤ periodSales data t) :
    brandPeriodSales bigBite (adjust_for_target_share bigBite data t target_share) t
        = (target_share / 100) * periodSales data t
    ∧ (adjusted_min t / 100) * periodSales data t
        ≤ brandPeriodSales bigBite (adjust_for_target_share bigBite data t target_share) t
    ∧ brandPeriodSales bigBite (adjust_for_target_share bigBite data t target_share) t
        ≤ (adjusted_max t / 100) * periodSales data t := by
  have hmain : brandPeriodSales bigBite
      (adjust_for_target_share bigBite data t target_share) t
      = (target_share / 100) * periodSales data t := by
    unfold adjust_for_target_share
    rw [if_pos hout, if_pos hbb, brandPeriodSales_map_scale]
    field_simp
    ring
  refine ⟨hmain, ?_, ?_⟩ <;> rw [hmain] <;> nlinarith [htot, htarget_lo, htarget_hi]

/-- Claim C3, amended: witness at the counterexample inputs with target
share 5 — the brand ends with 5 % of the pre-adjustment total. -/
theorem c3_witness :
    brandPeriodSales (identify_big_bite c3Products)
        (adjust_for_target_share (identify_big_bite c3Products) c3Data 2201 5) 2201
        = (5 / 100) * periodSales c3Data 2201
    ∧ (adjusted_min 2201 / 100) * periodSales c3Data 2201
        ≤ brandPeriodSales (identify_big_bite c3Products)
            (adjust_for_target_share (identify_big_bite c3Products) c3Data 2201 5) 2201
    ∧ brandPeriodSales (identify_big_bite c3Products)
        (adjust_for_target_share (identify_big_bite c3Products) c3Data 2201 5) 2201
        ≤ (adjusted_max 2201 / 100) * periodSales c3Data 2201 :=
  c3_amended (identify_big_bite c3Products) c3Data 2201 5
    (by norm_num [adjusted_min])
    (by norm_num [adjusted_max])
    (Or.inr (by norm_num [adjusted_max, calculate_market_share, periodSales,
      brandPeriodSales, bigBiteFacts.1, c3Data]))
    (by norm_num [brandPeriodSales, bigBiteFacts.1, c3Data])
    (by norm_num [periodSales, c3Data])

/-! ## SeasonalModel (statistical_models.py, lines 395-462)

The seasonal product lists come from pandas `str.contains` with alternation
patterns, case-insensitive; the curve itself is real-valued
(`np.exp`), so this component is modelled over ℝ. -/

/-- Case-insensitive match of any alternative of a regex alternation
pattern (patterns supplied in upper case). -/
def matchesAny (s : String) (pats : List String) : Bool :=
  pats.any (fun p => containsUpperSub s p)

/-- `_identify_seasonal_products` (lines 402-417): the `christmas` list. -/
def christmasProducts (products : List Product) : List ℤ :=
  (products.filter (fun p =>
    matchesAny p.subsegment_value ["ADVENT", "CHRISTMAS", "SELECTION"]
      || matchesAny p.segment_value ["SEASONAL", "GIFTING"])).map
    (fun p => p.product_key)

/-- `_identify_seasonal_products`: the `easter` list. -/
def easterProducts (products : List Product) : List ℤ :=
  (products.filter (fun p =>
    matchesAny p.subsegment_value ["EASTER", "EGG"])).map (fun p => p.product_key)

/-- `_identify_seasonal_products`: the `valentine` list. -/
def valentineProducts (products : List Product) : List ℤ :=
  (products.filter (fun p =>
    matchesAny p.subsegment_value ["VALENTINE", "HEART"])).map (fun p => p.product_key)

/-- `SeasonalModel.get_seasonal_multiplier` (lines 419-462) over ℝ.  The
seasonal branches are deterministic; `u` is the single uniform draw consumed
in whichever randomised non-seasonal branch is taken (`uniform(1.1, 1.3)`,
`uniform(1.2, 1.4)` or `uniform(0.7, 0.8)`). -/
noncomputable def get_seasonal_multiplier (products : List Product)
    (product_key week_number : ℤ) (u : ℝ) : ℝ :=
  if (christmasProducts products).contains product_key then
    if 44 ≤ week_number ∧ week_number ≤ 52 then
      max 2 (5 * Real.exp (-(1 / 10) * ((|week_number - 51| : ℤ) : ℝ)))
    else 1 / 10
  else if (easterProducts products).contains product_key then
    if 10 ≤ week_number ∧ week_number ≤ 16 then
      max 2 (4 * Real.exp (-(3 / 20) * ((|week_number - 14| : ℤ) : ℝ)))
    else 1 / 20
  else if (valentineProducts products).contains product_key then
    if 5 ≤ week_number ∧ week_number ≤ 7 then
      max (3 / 2) ((5 / 2) * Real.exp (-(1 / 2) * ((|week_number - 6| : ℤ) : ℝ)))
    else 1 / 10
  else
    if 48 ≤ week_number ∧ week_number ≤ 52 then u
    else if 10 ≤ week_number ∧ week_number ≤ 16 then u
    else if 26 ≤ week_number ∧ week_number ≤ 35 then u
    else 1

/-! ### Claim C8 -/

/-- Claim C8, confirmed.  For a Christmas-tagged product: inside weeks
44–52 the multiplier is deterministic (independent of the random draw),
equals the bell-curve value `max 2 (5 · exp(−0.1 · |w − 51|))` — an
exponential decay per week of distance from the peak week 51, floored at
2.0, hence `≥ 2` throughout and non-increasing in the distance from the
peak — and outside weeks 44–52 it is exactly the flat value 0.1. -/
theorem c8_christmas_curve (products : List Product) (p w w' : ℤ) (u u' : ℝ)
    (hp : (christmasProducts products).contains p = true) :
    ((44 ≤ w ∧ w ≤ 52) →
      (get_seasonal_multiplier products p w u = get_seasonal_multiplier products p w u'
        ∧ get_seasonal_multiplier products p w u
            = max 2 (5 * Real.exp (-(1 / 10) * ((|w - 51| : ℤ) : ℝ)))
        ∧ (2 : ℝ) ≤ get_seasonal_multiplier products p w u))
    ∧ ((44 ≤ w ∧ w ≤ 52) → (44 ≤ w' ∧ w' ≤ 52) → |w - 51| ≤ |w' - 51| →
        get_seasonal_multiplier products p w' u' ≤ get_seasonal_multiplier products p w u)
    ∧ (¬(44 ≤ w ∧ w ≤ 52) → get_seasonal_multiplier products p w u = 1 / 10) := by
  simp only [get_seasonal_multiplier, hp, if_true]
  refine ⟨fun hw => ?_, fun hw hw' hd => ?_, fun hw => ?_⟩
  · rw [if_pos hw]
    exact ⟨by trivial, rfl, le_max_left 2 _⟩
  · rw [if_pos hw, if_pos hw']
    have hcast : ((|w - 51| : ℤ) : ℝ) ≤ ((|w' - 51| : ℤ) : ℝ) := Int.cast_le.mpr hd
    have hexp : Real.exp (-(1 / 10) * ((|w' - 51| : ℤ) : ℝ))
        ≤ Real.exp (-(1 / 10) * ((|w - 51| : ℤ) : ℝ)) := by
      apply Real.exp_le_exp.mpr
      nlinarith
    exact max_le_max le_rfl (by nlinarith [hexp])
  · rw [if_neg hw]

/-- Catalog for the claim C8 witness: one product tagged Christmas through
both its subsegment and segment strings. -/
def c8Products : List Product :=
  [⟨7, "CHOC TUB", "M", "SEASONAL GIFTS", "CHRISTMAS SELECTION"⟩]

/-- Claim C8: witness at product 7 of `c8Products`, peak week `w = 51`,
window edge `w' = 44` and two different random draws. -/
theorem c8_witness :
    ((44 ≤ (51 : ℤ) ∧ (51 : ℤ) ≤ 52) →
      (get_seasonal_multiplier c8Products 7 51 0 = get_seasonal_multiplier c8Products 7 51 1
        ∧ get_seasonal_multiplier c8Products 7 51 0
            = max 2 (5 * Real.exp (-(1 / 10) * ((|(51 : ℤ) - 51| : ℤ) : ℝ)))
        ∧ (2 : ℝ) ≤ get_seasonal_multiplier c8Products 7 51 0))
    ∧ ((44 ≤ (51 : ℤ) ∧ (51 : ℤ) ≤ 52) → (44 ≤ (44 : ℤ) ∧ (44 : ℤ) ≤ 52) →
        |(51 : ℤ) - 51| ≤ |(44 : ℤ) - 51| →
        get_seasonal_multiplier c8Products 7 44 1 ≤ get_seasonal_multiplier c8Products 7 51 0)
    ∧ (¬(44 ≤ (51 : ℤ) ∧ (51 : ℤ) ≤ 52) → get_seasonal_multiplier c8Products 7 51 0 = 1 / 10) :=
  c8_christmas_curve c8Products 7 51 44 0 1 (by decide)

/-! ## FactSalesGenerator period loop (generate_rgm_data.py, lines 1089-1210)

The period loop is embedded as a pure fold over the period sequence,
threading the smoother history and producing the full observation sequence.
All random draws are read from an explicit per-period oracle (`PeriodDraws`),
keyed by the entity they are drawn for, which models the globally seeded
numpy/python generators (`np.random.seed(42)` / `random.seed(42)`, lines
24-26): given the seed, every draw — and therefore the whole oracle — is a
fixed value.  The seasonal multiplier and the composite brand-trend
multiplier (real-valued computations embedded separately above) likewise
enter through the oracle as the per-product and per-series values the seeded
generator determines. -/

/-- `FactSalesGenerator._get_week_number` (lines 963-965). -/
def get_week_number (time_key : ℤ) : ℤ := (time_key - 2201) % 52 + 1

/-- `FactSalesGenerator._classify_product_type` (lines 967-974). -/
def classify_product_type (p : Product) : String :=
  if ["LINDT", "HOTEL CHOCOLAT", "GODIVA", "FERRERO"].contains p.manufacturer_value then
    "premium"
  else if containsSub p.manufacturer_value ("PRIVATE LABEL")
      || ["ALDI", "LIDL"].contains p.manufacturer_value then "value"
  else "standard"

/-- `PriceElasticityModel.calculate_volume_from_price` (lines 465-487);
`elasticity` is the tier-dependent uniform draw made inside the call
(premium `uniform(-0.6, -0.4)`, value `uniform(-1.5, -1.2)`, standard
`uniform(-1.2, -0.8)`). -/
def calculate_volume_from_price (base_volume price_change_pct elasticity : ℚ) : ℚ :=
  let volume_change_pct := elasticity * price_change_pct
  max 0 (base_volume * (1 + volume_change_pct / 100))

/-- Draws consumed by the smoother for one (product, geography) series in
one period: the composite brand-trend multiplier and the three smoother
draws. -/
structure SmootherDraws where
  trend_mult : ℚ
  beta : ℚ
  epsilon : ℚ
  jitter : ℚ

/-- Draws consumed when one observation record is built. -/
structure SeriesDraws where
  sm : SmootherDraws
  /-- The tier-dependent `price_per_unit` uniform draw (lines 1155-1161). -/
  price : ℚ
  /-- `np.random.random()` deciding whether a promotion applies. -/
  promo_roll : ℚ
  /-- `np.random.uniform(0, 0.4)` promotion depth. -/
  promo_pct : ℚ
  /-- The elasticity draw made inside `calculate_volume_from_price`. -/
  elasticity : ℚ
  /-- `np.random.uniform(0.1, 2.0)` pack-size variation. -/
  pack : ℚ
  /-- `np.random.randint(10, 500)`. -/
  store_count : ℤ
  /-- `np.random.randint(5, 450)`. -/
  stores_selling : ℤ

/-- The oracle for all draws consumed while one period is processed. -/
structure PeriodDraws where
  /-- The seasonal multiplier of each product for this period's week. -/
  seasonal_mult : ℤ → ℚ
  /-- `np.random.random()` of the sparsity skip check, per product. -/
  skip_roll : ℤ → ℚ
  /-- The allocator's draws, per product. -/
  alloc : ℤ → AllocDraws
  /-- The per-series draws, product then geography. -/
  series : ℤ → ℤ → SeriesDraws
  /-- The controller's `np.random.uniform(adjusted_min, adjusted_max)`. -/
  target_share : ℚ

/-- One observation record (lines 1150-1188): promotion branch, price/unit
derivation, pack-size variation and store counts. -/
def seriesRecord (p : Product) (t gk : ℤ) (smoothed : ℚ) (sd : SeriesDraws) :
    Record :=
  let promo_pct := if sd.promo_roll < 3 / 10 then sd.promo_pct else 0
  let unit_sales :=
    if 0 < promo_pct then
      calculate_volume_from_price (smoothed / sd.price) (-(promo_pct * 100)) sd.elasticity
    else smoothed / sd.price
  ⟨gk, p.product_key, t, smoothed, unit_sales, unit_sales * sd.pack,
   smoothed * (1 - promo_pct), unit_sales * (1 - promo_pct),
   sd.store_count, sd.stores_selling⟩

/-- Lines 1139-1190: walk one product's per-geography allocations, skipping
values below 0.1, smoothing each series and accumulating records. -/
def processGeoSales (p : Product) (t : ℤ) (pd : PeriodDraws) :
    List (ℤ × ℚ) → List ((ℤ × ℤ × ℤ) × ℚ)
    → List Record × List ((ℤ × ℤ × ℤ) × ℚ)
  | [], hist => ([], hist)
  | (gk, base) :: rest, hist =>
    if base < 1 / 10 then processGeoSales p t pd rest hist
    else
      let sd := pd.series p.product_key gk
      let res := apply_temporal_smoothing hist gk p.product_key t base
        sd.sm.trend_mult sd.sm.beta sd.sm.epsilon sd.sm.jitter
      let rest_res := processGeoSales p t pd rest res.2
      (seriesRecord p t gk res.1 sd :: rest_res.1, rest_res.2)

/-- Lines 1126-1190, one product: seasonal skip check, then allocation and
smoothing.  (On the generator's geography the allocator always returns a
mapping; the `getD []` arm is unreachable there.) -/
def productRecords (geo : List GeoRow) (pd : PeriodDraws) (t : ℤ) (p : Product)
    (hist : List ((ℤ × ℤ × ℤ) × ℚ)) :
    List Record × List ((ℤ × ℤ × ℤ) × ℚ) :=
  let mult := pd.seasonal_mult p.product_key
  if mult < 1 / 5 ∧ 1 / 10 < pd.skip_roll p.product_key then ([], hist)
  else
    processGeoSales p t pd
      ((generate_hierarchical_sales geo (pd.alloc p.product_key) p.product_key t mult).getD [])
      hist

/-- The sampled products of one period, in order. -/
def processProducts (geo : List GeoRow) (pd : PeriodDraws) (t : ℤ) :
    List Product → List ((ℤ × ℤ × ℤ) × ℚ)
    → List Record × List ((ℤ × ℤ × ℤ) × ℚ)
  | [], hist => ([], hist)
  | p :: rest, hist =>
    let r1 := productRecords geo pd t p hist
    let r2 := processProducts geo pd t rest r1.2
    (r1.1 ++ r2.1, r2.2)

/-- One period (lines 1192-1205): build the period's records, then run the
market-share controller once on the full batch when it is nonempty. -/
def periodStep (products : List Product) (geo : List GeoRow) (bigBite : List ℤ)
    (pd : PeriodDraws) (t : ℤ) (hist : List ((ℤ × ℤ × ℤ) × ℚ)) :
    List Record × List ((ℤ × ℤ × ℤ) × ℚ) :=
  let pr := processProducts geo pd t products hist
  if pr.1 = [] then ([], pr.2)
  else (adjust_for_target_share bigBite pr.1 t pd.target_share, pr.2)

/-- The period fold, emitting each period's adjusted batch in order. -/
def periodLoop (products : List Product) (geo : List GeoRow) (bigBite : List ℤ)
    (draws : ℤ → PeriodDraws) :
    List ℤ → List ((ℤ × ℤ × ℤ) × ℚ) → List Record
  | [], _ => []
  | t :: rest, hist =>
    let pr := periodStep products geo bigBite (draws t) t hist
    pr.1 ++ periodLoop products geo bigBite draws rest pr.2

/-- `FactSalesGenerator.generate_fact_sales` (lines 1089-1210): the full
period loop over the sampled products (sampling itself is a deterministic
function of the seeded generator, so the sampled catalog is part of the
fixed inputs), starting from an empty smoother history. -/
def generate_fact_sales (products : List Product) (geo : List GeoRow)
    (time_keys : List ℤ) (draws : ℤ → PeriodDraws) : List Record :=
  periodLoop products geo (identify_big_bite products) draws time_keys []

/-! ### Claim C7 -/

/-- Claim C7, confirmed.  The period loop is a pure function of the seed and
the fixed inputs: the seeded global generators make every draw — the whole
`draws` oracle — a fixed value, and the loop threads its state explicitly,
so two runs with the same seed (hence equal oracles) and equal inputs
produce bit-identical observation sequences. -/
theorem c7_determinism (products₁ products₂ : List Product)
    (geo₁ geo₂ : List GeoRow) (tk₁ tk₂ : List ℤ) (d₁ d₂ : ℤ → PeriodDraws)
    (hp : products₁ = products₂) (hg : geo₁ = geo₂) (ht : tk₁ = tk₂)
    (hd : d₁ = d₂) :
    generate_fact_sales products₁ geo₁ tk₁ d₁
      = generate_fact_sales products₂ geo₂ tk₂ d₂ := by
  subst hp
  subst hg
  subst ht
  subst hd
  rfl

/-- A concrete draw oracle for the claim C7 witness. -/
def c7Draws : ℤ → PeriodDraws := fun _ =>
  ⟨fun _ => 1, fun _ => 0, fun _ => c10Draws,
   fun _ _ => ⟨⟨1, 1, 0, 1⟩, 10, 1, 0, -1, 1, 10, 5⟩, 5⟩

/-- Claim C7: witness — two runs on the same concrete seed-determined
oracle and inputs coincide. -/
theorem c7_witness :
    generate_fact_sales [⟨1, "BRAND", "MFR", "SEG", "SUB"⟩] ukGeography
        [2201, 2202] c7Draws
      = generate_fact_sales [⟨1, "BRAND", "MFR", "SEG", "SUB"⟩] ukGeography
        [2201, 2202] c7Draws :=
  c7_determinism [⟨1, "BRAND", "MFR", "SEG", "SUB"⟩] [⟨1, "BRAND", "MFR", "SEG", "SUB"⟩]
    ukGeography ukGeography [2201, 2202] [2201, 2202] c7Draws c7Draws
    rfl rfl rfl rfl

end RGM
